import Mathlib

/-!
Verification development for the PPMT-QC calibration selection and drift
correction engine.  The Lean definitions below are shallow embeddings of the
Python source in `src/drift.py`, `src/input.py`, `src/reader.py` and
`src/__init__.py`.  Python dictionaries with possibly-missing keys are
embedded as functions into `Option`; a missing key (Python `KeyError`) and
every other raised exception is represented by `Except.error ()`.  Floating
point values are embedded as rationals, with `Option ℚ` for values that may
be the not-a-number marker.
-/

namespace PPMT

/-- Observed variables appearing in the `data_source` dictionary built by
`input.manage_file_type` (dictionary insertion order: temperature, salinity,
conductivity, depth, pressure). -/
inductive Variable : Type
  | temperature
  | salinity
  | conductivity
  | depth
  | pressure
deriving DecidableEq, Repr

/-- Iteration order of the `data_source` dictionary (`input.py` lines 32-36). -/
def variableOrder : List Variable :=
  [.temperature, .salinity, .conductivity, .depth, .pressure]

/-- Values of the per-variable data source classification in
`input.manage_file_type` (`None` is embedded as `Option.none` at use sites). -/
inductive Source : Type
  | observation
  | teos10
  | metadata
deriving DecidableEq, Repr

/-- Boolean switches returned by `reader.probe_calfile` that the calibration
source selector consults (the date switches are not read by the selector and
are omitted). -/
structure CalFlags : Type where
  temperature_calibration : Bool
  conductivity_raw_calibration : Bool
  conductivity_clean_calibration : Bool
  salinity_raw_calibration : Bool
  salinity_clean_calibration : Bool
  depth_calibration : Bool
deriving DecidableEq, Repr

/-- All-false probe result (`probe_calfile` on a year with no sheet). -/
def noFlags : CalFlags :=
  ⟨false, false, false, false, false, false⟩

/-- Lookup of the key `f'{variable}_calibration'` used in the
temperature/depth branch of `get_calibration_data_setup`. -/
def td_flag (f : CalFlags) : Variable → Bool
  | .temperature => f.temperature_calibration
  | .depth => f.depth_calibration
  | _ => false

/-- Lookup of the key `f'{variable}_raw_calibration'` used in the
salinity/conductivity branch of `get_calibration_data_setup`. -/
def raw_flag (f : CalFlags) : Variable → Bool
  | .salinity => f.salinity_raw_calibration
  | .conductivity => f.conductivity_raw_calibration
  | _ => false

/-- Lookup of the key `f'{variable}_clean_calibration'` used in the
salinity/conductivity branch of `get_calibration_data_setup`. -/
def clean_flag (f : CalFlags) : Variable → Bool
  | .salinity => f.salinity_clean_calibration
  | .conductivity => f.conductivity_clean_calibration
  | _ => false

/-- Variable names handed to `reader.read_calfile` at its `variable`
argument by the selector: the plain names and the raw/clean variants of
salinity and conductivity. -/
inductive CalVariant : Type
  | temperature
  | salinity
  | conductivity
  | depth
  | pressure
  | salinity_raw
  | salinity_clean
  | conductivity_raw
  | conductivity_clean
deriving DecidableEq, Repr

/-- The plain `variable` string. -/
def plainVariant : Variable → CalVariant
  | .temperature => .temperature
  | .salinity => .salinity
  | .conductivity => .conductivity
  | .depth => .depth
  | .pressure => .pressure

/-- The string `f'{variable}_raw'` for salinity and conductivity. -/
def rawVariant : Variable → CalVariant
  | .salinity => .salinity_raw
  | .conductivity => .conductivity_raw
  | v => plainVariant v

/-- The string `f'{variable}_clean'` for salinity and conductivity. -/
def cleanVariant : Variable → CalVariant
  | .salinity => .salinity_clean
  | .conductivity => .conductivity_clean
  | v => plainVariant v

/-- Value of the `sheet` entry of the dictionaries built by
`get_calibration_data_setup`: a concrete year, the string `'blank'`, or
Python `None`. -/
inductive Sheet : Type
  | yr (y : Int)
  | blank
  | nil
deriving DecidableEq, Repr

/-- Return value of `drift.get_calibration_data_setup`. -/
structure Calibrations : Type where
  ok : Bool
  pre : CalVariant × Sheet
  post : CalVariant × Sheet
deriving DecidableEq, Repr

/-- The `header['mli_calibration']` dictionary: probe results keyed by year,
plus the optional `'single_year'` key (absent keys are `none`, and reading an
absent key is a Python `KeyError`). -/
structure MliCal : Type where
  years : Int → Option CalFlags
  single_year : Option Bool

/-- Construction of `header['mli_calibration']` in `input.manage_file_type`
(`input.py` lines 152-155): a dictionary with exactly the keys
`year`, `year - 1` and `year - 2`, and no `'single_year'` key. -/
def mli_calibration_window (probe : Int → CalFlags) (year : Int) : MliCal where
  years := fun y =>
    if y = year ∨ y = year - 1 ∨ y = year - 2 then some (probe y) else none
  single_year := none

/-- Availability dictionary holding every year key and the `'single_year'`
key; used to state properties of the selector on inputs where no lookup can
fail. -/
def fullWindow (probe : Int → CalFlags) (s : Bool) : MliCal where
  years := fun y => some (probe y)
  single_year := some s

/-- Pre-deployment candidate search of the temperature/depth branch of
`get_calibration_data_setup` (`drift.py` lines 128-142 and 147-161; the
source repeats this block verbatim for each post-deployment year, here it is
a helper taking the chosen post year).  `year_pre` carries the user-forced
year together with the result of `probe_calfile` on it, which the source
computes eagerly at line 118. -/
def preTD (v : Variable) (year : Int) (mli_cal : MliCal)
    (year_pre : Option (Int × CalFlags)) (post_year : Int) :
    Except Unit Calibrations :=
  -- Pre deployment calibration year is user specified
  if year_pre.elim false (fun q => td_flag q.2 v) then
    .ok ⟨true, (plainVariant v, .yr (year_pre.elim 0 (·.1))),
               (plainVariant v, .yr post_year)⟩
  else
    -- Pre deployment calibration exists (one year back)
    match mli_cal.years (year - 1) with
    | none => .error ()
    | some f1 =>
      if td_flag f1 v then
        .ok ⟨true, (plainVariant v, .yr (year - 1)),
                   (plainVariant v, .yr post_year)⟩
      else
        -- Pre deployment calibration exists (two years back)
        match mli_cal.years (year - 2) with
        | none => .error ()
        | some f2 =>
          if td_flag f2 v then
            .ok ⟨true, (plainVariant v, .yr (year - 2)),
                       (plainVariant v, .yr post_year)⟩
          else
            -- Post deployment is on a new device (single calibration)
            match mli_cal.single_year with
            | none => .error ()
            | some s =>
              if s then
                .ok ⟨true, (plainVariant v, .blank),
                           (plainVariant v, .yr post_year)⟩
              else
                .ok ⟨false, (plainVariant v, .nil),
                            (plainVariant v, .nil)⟩

/-- Pre-deployment candidate search of the salinity/conductivity branch of
`get_calibration_data_setup` (`drift.py` lines 174-196 and 200-222), as a
helper taking the chosen post year. -/
def preSC (v : Variable) (year : Int) (mli_cal : MliCal)
    (year_pre : Option (Int × CalFlags)) (post_year : Int) :
    Except Unit Calibrations :=
  -- Pre deployment calibration year is user specified (clean preferred)
  if year_pre.elim false (fun q => clean_flag q.2 v) then
    .ok ⟨true, (cleanVariant v, .yr (year_pre.elim 0 (·.1))),
               (rawVariant v, .yr post_year)⟩
  else if year_pre.elim false (fun q => raw_flag q.2 v) then
    .ok ⟨true, (rawVariant v, .yr (year_pre.elim 0 (·.1))),
               (rawVariant v, .yr post_year)⟩
  else
    -- Pre deployment calibration exists (one year back; clean)
    match mli_cal.years (year - 1) with
    | none => .error ()
    | some f1 =>
      if clean_flag f1 v then
        .ok ⟨true, (cleanVariant v, .yr (year - 1)),
                   (rawVariant v, .yr post_year)⟩
      -- Pre deployment calibration exists (one year back; raw)
      else if raw_flag f1 v then
        .ok ⟨true, (rawVariant v, .yr (year - 1)),
                   (rawVariant v, .yr post_year)⟩
      else
        -- Pre deployment calibration exists (two years back; clean)
        match mli_cal.years (year - 2) with
        | none => .error ()
        | some f2 =>
          if clean_flag f2 v then
            .ok ⟨true, (cleanVariant v, .yr (year - 2)),
                       (rawVariant v, .yr post_year)⟩
          -- Pre deployment calibration exists (two years back; raw)
          else if raw_flag f2 v then
            .ok ⟨true, (rawVariant v, .yr (year - 2)),
                       (rawVariant v, .yr post_year)⟩
          else
            -- Post deployment is on a new device (single calibration)
            match mli_cal.single_year with
            | none => .error ()
            | some s =>
              if s then
                .ok ⟨true, (rawVariant v, .blank),
                           (rawVariant v, .yr post_year)⟩
              else
                .ok ⟨false, (rawVariant v, .nil),
                            (rawVariant v, .nil)⟩

/-- Embedding of `drift.get_calibration_data_setup` (`drift.py` lines
92-232).  Dictionary subscripts on `mli_cal` are `Except`-valued lookups so
that a missing key is the Python `KeyError`. -/
def get_calibration_data_setup (v : Variable) (year : Int)
    (mli_cal : MliCal) (year_pre : Option (Int × CalFlags)) :
    Except Unit Calibrations :=
  if v = .temperature ∨ v = .depth then
    -- Post deployment calibration exists (on deployment year)
    match mli_cal.years year with
    | none => .error ()
    | some f0 =>
      if td_flag f0 v then preTD v year mli_cal year_pre year
      else
        -- Post deployment calibration exists (the year after deployment year)
        match mli_cal.years (year + 1) with
        | none => .error ()
        | some f1 =>
          if td_flag f1 v then
            preTD v year mli_cal year_pre (year + 1)
          else
            -- Post deployment calibration does not exist
            .ok ⟨false, (plainVariant v, .nil),
                        (plainVariant v, .nil)⟩
  else if v = .salinity ∨ v = .conductivity then
    match mli_cal.years year with
    | none => .error ()
    | some f0 =>
      if raw_flag f0 v then preSC v year mli_cal year_pre year
      else
        match mli_cal.years (year + 1) with
        | none => .error ()
        | some f1 =>
          if raw_flag f1 v then
            preSC v year mli_cal year_pre (year + 1)
          else
            -- Post deployment calibration does not exist (line 226 uses the
            -- plain variable name here)
            .ok ⟨false, (plainVariant v, .nil),
                        (plainVariant v, .nil)⟩
  else
    -- No pressure calibration at this stage
    .ok ⟨false, (plainVariant v, .nil), (plainVariant v, .nil)⟩


/-- First entry of a candidate list whose guard is true (evaluation engine
for the documented fallback order of spec section 4.2). -/
def firstTrue {α : Type} : List (Bool × α) → Option α
  | [] => none
  | (b, a) :: rest => if b then some a else firstTrue rest

/-- Documented pre-deployment fallback order for salinity and conductivity,
following the words of the spec: user-forced-clean, user-forced-raw,
(year-1)-clean, (year-1)-raw, (year-2)-clean, (year-2)-raw, then blank gated
on the single-calibration flag. -/
def spec_pre_salcond (v : Variable) (year : Int) (probe : Int → CalFlags)
    (s : Bool) (year_pre : Option (Int × CalFlags)) :
    List (Bool × (CalVariant × Sheet)) :=
  [ (year_pre.elim false (fun q => clean_flag q.2 v),
      (cleanVariant v, .yr (year_pre.elim 0 (·.1)))),
    (year_pre.elim false (fun q => raw_flag q.2 v),
      (rawVariant v, .yr (year_pre.elim 0 (·.1)))),
    (clean_flag (probe (year - 1)) v, (cleanVariant v, .yr (year - 1))),
    (raw_flag (probe (year - 1)) v, (rawVariant v, .yr (year - 1))),
    (clean_flag (probe (year - 2)) v, (cleanVariant v, .yr (year - 2))),
    (raw_flag (probe (year - 2)) v, (rawVariant v, .yr (year - 2))),
    (s, (rawVariant v, .blank)) ]

/-- Reference selector for salinity and conductivity written from the words
of the spec: post candidates are `year` then `year + 1` on the `_raw` flag,
the post source is always the `_raw` variant, and the pre source is the
first match of the documented fallback list. -/
def spec_select_salcond (v : Variable) (year : Int) (probe : Int → CalFlags)
    (s : Bool) (year_pre : Option (Int × CalFlags)) : Calibrations :=
  if raw_flag (probe year) v then
    match firstTrue (spec_pre_salcond v year probe s year_pre) with
    | some pre => ⟨true, pre, (rawVariant v, .yr year)⟩
    | none => ⟨false, (rawVariant v, .nil), (rawVariant v, .nil)⟩
  else if raw_flag (probe (year + 1)) v then
    match firstTrue (spec_pre_salcond v year probe s year_pre) with
    | some pre => ⟨true, pre, (rawVariant v, .yr (year + 1))⟩
    | none => ⟨false, (rawVariant v, .nil), (rawVariant v, .nil)⟩
  else ⟨false, (plainVariant v, .nil), (plainVariant v, .nil)⟩

/-- C1: the claim states that for every variable and availability window the
selector returns `ok=false` when no fallback candidate matches and never
raises.  Evaluating the code on the availability dictionary that
`input.manage_file_type` actually builds (keys `year`, `year-1`, `year-2`
only, no `single_year` key), for a device whose deployment-year sheet has no
temperature data, shows the selector reads the missing `year+1` key: a
`KeyError` is raised instead of returning `ok=false`. -/
theorem C1_selector_keyerror_on_computed_window :
    get_calibration_data_setup .temperature 2023
      (mli_calibration_window (fun _ => noFlags) 2023) none = .error () := rfl

/-- C2: the claim states the availability window is computed for
`{year-2 .. year+1}`.  Evaluating the window that `input.manage_file_type`
builds for deployment year 2023 shows the `year+1` (2024) key and the
`single_year` key are absent while `year .. year-2` are present; the
documented candidate-order example (`{year: true, year-1: false,
year-2: true}` gives pre=year-2, post=year) does hold on that window. -/
theorem C2_window_misses_year_plus_one :
    ((mli_calibration_window (fun _ => noFlags) 2023).years 2024 = none
      ∧ (mli_calibration_window (fun _ => noFlags) 2023).years 2023
          = some noFlags
      ∧ (mli_calibration_window (fun _ => noFlags) 2023).years 2022
          = some noFlags
      ∧ (mli_calibration_window (fun _ => noFlags) 2023).years 2021
          = some noFlags
      ∧ (mli_calibration_window (fun _ => noFlags) 2023).single_year = none)
    ∧ get_calibration_data_setup .temperature 2023
        (mli_calibration_window
          (fun y => if y = 2022 then noFlags
                    else ⟨true, false, false, false, false, true⟩) 2023)
        none
      = .ok ⟨true, (.temperature, .yr 2021), (.temperature, .yr 2023)⟩ :=
  ⟨⟨rfl, rfl, rfl, rfl, rfl⟩, rfl⟩

/-- Test `device_serial.startswith('0')` of `reader.assert_serial`. -/
def startsWithZero (s : String) : Bool :=
  match s.data with
  | c :: _ => c = '0'
  | [] => false

/-- Embedding of `reader.assert_serial` (`reader.py` lines 55-76): `lookup`
is the list of serial strings extracted from the calibration file names
(`CALFILES_LOOKUP.serial`, kept as strings because some serials start with
zero, see `extract_serial` in `src/__init__.py`). -/
def assert_serial (lookup : List String) (device_serial : String) :
    Except Unit String :=
  if device_serial ∈ lookup then .ok device_serial
  else if startsWithZero device_serial ∧ (device_serial.drop 1) ∈ lookup then
    .ok (device_serial.drop 1)
  else .error ()

/-- Decimal digit-string value, the `int()` of a digit string. -/
def digitsToNat (l : List Char) : Nat :=
  l.foldl (fun acc c => 10 * acc + (c.toNat - 48)) 0

/-- Embedding of the device serial header field set by
`input.manage_file_type` (`input.py` line 130): `int(serial[3:])` applied to
the digit string read from the data file; downstream readers re-enter it
through `str()`, which is `toString` on the stored integer. -/
def device_serial_header (serial : String) : Nat :=
  digitsToNat (serial.data.drop 3)

/-- C9: the claim states the device identifier is kept a string end-to-end
and never coerced to an integer, preserving a significant leading zero.
Evaluating the code: the header stores `int("0370123"[3:]) = 123`, its
string form re-entering the calibration lookup is "123", and
`assert_serial` then fails although a calibration file for serial "0123"
exists; the un-coerced string "0123" would have been found.  The
normalization half of the claim does hold: one leading zero is stripped
exactly when the un-stripped form is absent. -/
theorem C9_serial_coerced_to_int_loses_leading_zero :
    device_serial_header "0370123" = 123
    ∧ toString (device_serial_header "0370123") = "123"
    ∧ assert_serial ["0123"] (toString (device_serial_header "0370123"))
        = .error ()
    ∧ assert_serial ["0123"] "0123" = .ok "0123"
    ∧ assert_serial ["123"] "0123" = .ok "123" :=
  ⟨by decide, by decide, by rfl, by rfl, by rfl⟩

/-- On an availability dictionary with every key present, the
salinity/conductivity pre-deployment search is the first match of the
documented candidate list. -/
theorem preSC_fullWindow (v : Variable) (year : Int) (p : Int → CalFlags)
    (s : Bool) (ypre : Option (Int × CalFlags)) (post_year : Int) :
    preSC v year (fullWindow p s) ypre post_year =
      .ok (match firstTrue (spec_pre_salcond v year p s ypre) with
           | some pre => ⟨true, pre, (rawVariant v, .yr post_year)⟩
           | none => ⟨false, (rawVariant v, .nil), (rawVariant v, .nil)⟩) := by
  cases ypre with
  | none =>
      simp only [preSC, fullWindow, spec_pre_salcond, firstTrue, Option.elim]
      cases h1 : clean_flag (p (year - 1)) v <;>
        cases h2 : raw_flag (p (year - 1)) v <;>
          cases h3 : clean_flag (p (year - 2)) v <;>
            cases h4 : raw_flag (p (year - 2)) v <;>
              cases s <;> simp [h1, h2, h3, h4]
  | some q =>
      simp only [preSC, fullWindow, spec_pre_salcond, firstTrue, Option.elim]
      cases h0 : clean_flag q.2 v <;>
        cases h5 : raw_flag q.2 v <;>
          cases h1 : clean_flag (p (year - 1)) v <;>
            cases h2 : raw_flag (p (year - 1)) v <;>
              cases h3 : clean_flag (p (year - 2)) v <;>
                cases h4 : raw_flag (p (year - 2)) v <;>
                  cases s <;> simp [h0, h5, h1, h2, h3, h4]

/-- C3: for salinity and conductivity, the selected post-deployment variant
is always the `_raw` variant of the deployment (or following) year, and the
pre-deployment source is the first match of the documented candidate order
user-forced-clean, user-forced-raw, (year-1)-clean, (year-1)-raw,
(year-2)-clean, (year-2)-raw, then blank gated on the single-calibration
flag; in particular the clean variant is preferred over raw at each year.
Stated as: on availability dictionaries with all keys present the selector
coincides with the reference selector written from the words of the spec. -/
theorem C3_salcond_selector_follows_spec_order :
    ∀ (year : Int) (p : Int → CalFlags) (s : Bool)
      (ypre : Option (Int × CalFlags)),
      get_calibration_data_setup .salinity year (fullWindow p s) ypre
        = .ok (spec_select_salcond .salinity year p s ypre) ∧
      get_calibration_data_setup .conductivity year (fullWindow p s) ypre
        = .ok (spec_select_salcond .conductivity year p s ypre) := by
  intro year p s ypre
  constructor
  · cases hA : raw_flag (p year) Variable.salinity <;>
      cases hB : raw_flag (p (year + 1)) Variable.salinity <;>
        simp [get_calibration_data_setup, fullWindow, spec_select_salcond,
          hA, hB] <;>
          exact preSC_fullWindow _ _ _ _ _ _
  · cases hA : raw_flag (p year) Variable.conductivity <;>
      cases hB : raw_flag (p (year + 1)) Variable.conductivity <;>
        simp [get_calibration_data_setup, fullWindow, spec_select_salcond,
          hA, hB] <;>
          exact preSC_fullWindow _ _ _ _ _ _

/-- Timestamp carried by a calibration point: a real time (decimal days
since the epoch, the value `timestamp2numeric` converts to) or the symbolic
string `'deployment'` written by the blank branch of `read_calfile`. -/
inductive TimeVal : Type
  | real (t : ℚ)
  | deployment
deriving DecidableEq, Repr

/-- Cell values of one calibration row as read from a sheet block
(`standard`, `instrument`, `deviation`, `nominal`; `none` is an empty or
not-a-number cell). -/
structure RawRow : Type where
  standard : Option ℚ
  instrument : Option ℚ
  deviation : Option ℚ
  nominal : Option ℚ
deriving DecidableEq, Repr

/-- One row of the dataframe returned by `reader.read_calfile`: the cell
values plus the `time` column added at the end of the function. -/
structure CalPoint extends RawRow : Type where
  time : TimeVal
deriving DecidableEq, Repr

/-- The `nrows` entry of the `rdxl_kw` dictionary of `read_calfile` for each
valid variable (invalid variables raise before `nrows` is used). -/
def nrowsOf : CalVariant → Nat
  | .temperature => 6
  | .conductivity_raw => 4
  | .salinity_raw => 4
  | .conductivity_clean => 4
  | .salinity_clean => 4
  | .depth => 10
  | _ => 0

/-- Whether the `names` entry of `rdxl_kw` contains a `nominal` column
(every valid variable except depth). -/
def hasNominal : CalVariant → Bool
  | .depth => false
  | _ => true

/-- The `allowed_values` check of `read_calfile`: any other variable raises
`ValueError`. -/
def valid_calfile_variable : CalVariant → Bool
  | .temperature => true
  | .salinity_raw => true
  | .salinity_clean => true
  | .conductivity_raw => true
  | .conductivity_clean => true
  | .depth => true
  | _ => false

/-- One row of the `np.zeros` blank table of `read_calfile`, with the
symbolic `'deployment'` time. -/
def blank_row (hasNom : Bool) : CalPoint :=
  { standard := some 0, instrument := some 0, deviation := some 0,
    nominal := if hasNom then some 0 else none, time := .deployment }

/-- Contents of the calibration workbook of one device, as `read_calfile`
reads it: which year sheets exist, the date cell of each block, and the cell
rows of each block.  The workbook is external data; its parsed cell values
are inputs of the embedding. -/
structure CalSheets : Type where
  sheets : Int → Bool
  date : Int → CalVariant → ℚ
  rows : Int → CalVariant → List RawRow

/-- Embedding of `reader.read_calfile` (`reader.py` lines 351-470).  The
`blank` sheet yields the synthetic zero table with the symbolic time; a year
sheet yields the rows of the block, every row tagged with the single
recorded block date; a missing year sheet and the `None` sheet raise. -/
def read_calfile (cs : CalSheets) (sheet : Sheet) (v : CalVariant) :
    Except Unit (List CalPoint) :=
  if valid_calfile_variable v = false then .error ()
  else
    match sheet with
    | .blank => .ok (List.replicate (nrowsOf v) (blank_row (hasNominal v)))
    | .yr y =>
        if cs.sheets y then
          .ok ((cs.rows y v).map fun r =>
            { toRawRow := r, time := .real (cs.date y v) })
        else .error ()
    | .nil => .error ()

/-- The header dictionary fields of `input.manage_file_type` that the drift
module reads. -/
structure Header : Type where
  deployment_year : Int
  trip_installation_real_date : ℚ
  data_source : Variable → Option Source
  mli_calibration : MliCal

/-- Sequential processing of the observed variables (the `for variable,
source in header['data_source'].items()` loops); a raised exception aborts
the remaining iterations. -/
def run_vars {σ : Type} (step : Variable → σ → Except Unit σ) :
    List Variable → σ → Except Unit σ
  | [], st => .ok st
  | v :: rest, st =>
    match step v st with
    | .error e => .error e
    | .ok st1 => run_vars step rest st1

/-- Loop body of `drift.get_calibration_data` (`drift.py` lines 56-87) for
one variable: for observation-sourced variables run the selector, read the
pre table, resolve the symbolic `'deployment'` time to the installation
date, read the post table and store pre-then-post; otherwise store
nothing. -/
def getcal_step (cs : CalSheets) (header : Header)
    (year_pre : Option (Int × CalFlags)) (v : Variable)
    (acc : Variable → Option (List CalPoint)) :
    Except Unit (Variable → Option (List CalPoint)) :=
  match header.data_source v with
  | some .observation =>
    match get_calibration_data_setup v header.deployment_year
        header.mli_calibration year_pre with
    | .error e => .error e
    | .ok calibrations =>
      if calibrations.ok then
        match read_calfile cs calibrations.pre.2 calibrations.pre.1 with
        | .error e => .error e
        | .ok df_pre0 =>
          -- Assume factory calibration was perfect on deployment date
          let df_pre :=
            if df_pre0.any (fun p => p.time = .deployment) then
              df_pre0.map (fun p =>
                { p with time := .real header.trip_installation_real_date })
            else df_pre0
          match read_calfile cs calibrations.post.2 calibrations.post.1 with
          | .error e => .error e
          | .ok df_post =>
            .ok (fun w => if w = v then some (df_pre ++ df_post) else acc w)
      else
        -- the source prints a message and stores no entry
        .ok acc
  | _ => .ok acc

/-- Embedding of `drift.get_calibration_data` (`drift.py` lines 35-89). -/
def get_calibration_data (cs : CalSheets) (header : Header)
    (year_pre : Option (Int × CalFlags)) :
    Except Unit (Variable → Option (List CalPoint)) :=
  run_vars (getcal_step cs header year_pre) variableOrder (fun _ => none)

/-- Column keys of the observation dataframe touched by the drift module:
the variable column, its `_deviation` column and its `_raw` copy. -/
inductive Col : Type
  | var (v : Variable)
  | dev (v : Variable)
  | rawcopy (v : Variable)
deriving DecidableEq, Repr

/-- The observation dataframe: the `time` column and the variable columns
(`none` marks an absent column; `none` entries inside a column are
not-a-number values). -/
structure DataFrame : Type where
  time : List ℚ
  cols : Col → Option (List (Option ℚ))

/-- Column assignment `data[c] = s`. -/
def setCol (df : DataFrame) (c : Col) (s : List (Option ℚ)) : DataFrame :=
  { df with cols := fun k => if k = c then some s else df.cols k }

/-- Numeric value of a resolved calibration timestamp
(`timestamp2numeric`); symbolic times are rejected before this is used. -/
def timeNumOf : TimeVal → ℚ
  | .real t => t
  | .deployment => 0

/-- Embedding of `drift.interpolate_deviation` (`drift.py` lines 235-263).
The scattered-data interpolant (`scipy.interpolate.LinearNDInterpolator`) is
external code and enters as the parameter `itp`, applied to the calibration
points `(time_num, standard, deviation)` it is built from and then to one
query coordinate `(time_num, value)`; a `none` result is its not-a-number
output.  Converting the symbolic `'deployment'` time raises, and this
happens before the missing-standard filter; a not-a-number observation value
queries to not-a-number. -/
def interpolate_deviation
    (itp : List (ℚ × ℚ × Option ℚ) → ℚ × ℚ → Option ℚ)
    (caldata : List CalPoint) (df : DataFrame) (param : Variable) :
    Except Unit (List (Option ℚ)) :=
  if caldata.any (fun p => p.time = .deployment) then .error ()
  else
    -- ensure there are no missing values
    let cal := caldata.filter (fun p => p.standard.isSome)
    let pts := cal.map (fun p => (timeNumOf p.time, p.standard.getD 0,
      p.deviation))
    match df.cols (.var param) with
    | none => .error ()
    | some vals =>
      .ok (List.zipWith (fun t x =>
        match x with
        | none => none
        | some xv => itp pts (t, xv)) df.time vals)

/-- The `THRESHOLDS` dictionary of `src/__init__.py` lines 14-19 (reading a
missing key raises). -/
def THRESHOLDS : Variable → Option ℚ
  | .temperature => some (1/100)
  | .salinity => some (5/100)
  | .conductivity => some (9/1000)
  | .depth => some 1
  | .pressure => none

/-- Pandas `deviation.abs() > threshold` on one possibly-missing cell: a
not-a-number compares false. -/
def exceeds (threshold : ℚ) (d : Option ℚ) : Bool :=
  d.elim false (fun dv => decide (threshold < |dv|))

/-- Pointwise `data[variable] += deviation` (not-a-number propagates). -/
def addSeries (xs ds : List (Option ℚ)) : List (Option ℚ) :=
  List.zipWith (fun x d =>
    match x, d with
    | some xv, some dv => some (xv + dv)
    | _, _ => none) xs ds

/-- Pointwise `correctedSeries - deviationSeries`, the round-trip operation
of the spec (not-a-number propagates). -/
def subSeries (xs ds : List (Option ℚ)) : List (Option ℚ) :=
  List.zipWith (fun x d =>
    match x, d with
    | some xv, some dv => some (xv - dv)
    | _, _ => none) xs ds

/-- Loop body of `drift.manage_drift_correction` (`drift.py` lines 297-330)
for one variable: skip variables without calibration data; interpolate and
always store the deviation column; compare the calibration-point deviations
against the threshold; if exceeded, keep a raw copy and add the deviation to
the whole series, recording the decision either way. -/
def drift_step (itp : List (ℚ × ℚ × Option ℚ) → ℚ × ℚ → Option ℚ)
    (calibration_data : Variable → Option (List CalPoint)) (v : Variable)
    (st : DataFrame × (Variable → Option Bool)) :
    Except Unit (DataFrame × (Variable → Option Bool)) :=
  match calibration_data v with
  | none => .ok st
  | some caltable =>
    match interpolate_deviation itp caltable st.1 v with
    | .error e => .error e
    | .ok deviation =>
      -- Apply drift correction (the deviation diagnostic column, line 310)
      let df1 := setCol st.1 (.dev v) deviation
      match THRESHOLDS v with
      | none => .error ()
      | some threshold =>
        -- Determine if drift correction must be applied
        if caltable.any (fun p => exceeds threshold p.deviation) then
          match df1.cols (.var v) with
          | none => .error ()
          | some orig =>
            .ok (setCol (setCol df1 (.rawcopy v) orig) (.var v)
                   (addSeries orig deviation),
                 fun w => if w = v then some true else st.2 w)
        else
          .ok (df1, fun w => if w = v then some false else st.2 w)

/-- Embedding of `drift.manage_drift_correction` (`drift.py` lines
266-332).  The loop runs over the keys of `header['data_source']`, which are
exactly `variableOrder`; the body ignores the source value. -/
def manage_drift_correction
    (itp : List (ℚ × ℚ × Option ℚ) → ℚ × ℚ → Option ℚ)
    (df : DataFrame)
    (calibration_data : Variable → Option (List CalPoint)) :
    Except Unit (DataFrame × (Variable → Option Bool)) :=
  run_vars (drift_step itp calibration_data) variableOrder
    (df, fun _ => none)

/-- Inversion of one loop iteration that did not raise. -/
theorem run_vars_ok_cons {σ : Type} {step : Variable → σ → Except Unit σ}
    {w : Variable} {l : List Variable} {st st' : σ}
    (h : run_vars step (w :: l) st = .ok st') :
    ∃ s1, step w st = .ok s1 ∧ run_vars step l s1 = .ok st' := by
  simp only [run_vars] at h
  cases hw : step w st with
  | error e => rw [hw] at h; exact absurd h (by simp)
  | ok s1 => rw [hw] at h; exact ⟨s1, rfl, h⟩

/-- Splitting a loop that did not raise at a list concatenation. -/
theorem run_vars_ok_append {σ : Type} {step : Variable → σ → Except Unit σ}
    {l1 l2 : List Variable} {st st' : σ}
    (h : run_vars step (l1 ++ l2) st = .ok st') :
    ∃ s1, run_vars step l1 st = .ok s1 ∧ run_vars step l2 s1 = .ok st' := by
  induction l1 generalizing st with
  | nil => exact ⟨st, rfl, h⟩
  | cons w l ih =>
    rw [List.cons_append] at h
    obtain ⟨s1, hw, hrest⟩ := run_vars_ok_cons h
    obtain ⟨s2, h1, h2⟩ := ih hrest
    exact ⟨s2, by simp [run_vars, hw, h1], h2⟩

/-- A quantity preserved by every iteration of a loop is preserved by the
loop. -/
theorem run_vars_preserves {σ τ : Type} {step : Variable → σ → Except Unit σ}
    (g : σ → τ) :
    ∀ (l : List Variable) (st st' : σ),
    (∀ w ∈ l, ∀ s s', step w s = .ok s' → g s' = g s) →
    run_vars step l st = .ok st' → g st' = g st := by
  intro l
  induction l with
  | nil =>
    intro st st' _ h
    simp only [run_vars] at h
    cases h
    rfl
  | cons w l ih =>
    intro st st' hstep h
    obtain ⟨s1, hw, hrest⟩ := run_vars_ok_cons h
    have h1 := hstep w (by simp) st s1 hw
    have h2 := ih s1 st' (fun w' hw' => hstep w' (by simp [hw'])) hrest
    rw [h2, h1]

/-- The per-variable footprint of the observation dataframe and decision
record: the time column, the three columns of the variable, and its
decision entry. -/
def varState (v : Variable) (st : DataFrame × (Variable → Option Bool)) :
    List ℚ × Option (List (Option ℚ)) × Option (List (Option ℚ)) ×
      Option (List (Option ℚ)) × Option Bool :=
  (st.1.time, st.1.cols (.var v), st.1.cols (.dev v),
    st.1.cols (.rawcopy v), st.2 v)

/-- One drift-correction iteration touches only the columns and decision
entry of its own variable. -/
theorem drift_step_frame
    {itp : List (ℚ × ℚ × Option ℚ) → ℚ × ℚ → Option ℚ}
    {cal : Variable → Option (List CalPoint)} {w v : Variable}
    (hne : w ≠ v) {st st' : DataFrame × (Variable → Option Bool)}
    (h : drift_step itp cal w st = .ok st') :
    varState v st' = varState v st := by
  simp only [drift_step] at h
  split at h
  · cases h; rfl
  · split at h
    · exact absurd h (by simp)
    · split at h
      · exact absurd h (by simp)
      · split at h
        · split at h
          · exact absurd h (by simp)
          · cases h
            simp [varState, setCol, Ne.symm hne, hne]
        · cases h
          simp [varState, setCol, Ne.symm hne, hne]

/-- Effect of one drift-correction iteration on its own variable. -/
theorem drift_step_effect
    {itp : List (ℚ × ℚ × Option ℚ) → ℚ × ℚ → Option ℚ}
    {cal : Variable → Option (List CalPoint)} {v : Variable}
    {tbl : List CalPoint} (hc : cal v = some tbl)
    {st st' : DataFrame × (Variable → Option Bool)}
    (h : drift_step itp cal v st = .ok st') :
    ∃ dv threshold, interpolate_deviation itp tbl st.1 v = .ok dv ∧
      THRESHOLDS v = some threshold ∧
      st'.1.time = st.1.time ∧
      st'.1.cols (.dev v) = some dv ∧
      (if tbl.any (fun p => exceeds threshold p.deviation) then
        ∃ orig, st.1.cols (.var v) = some orig ∧ st'.2 v = some true ∧
          st'.1.cols (.rawcopy v) = some orig ∧
          st'.1.cols (.var v) = some (addSeries orig dv)
      else st'.2 v = some false ∧
        st'.1.cols (.var v) = st.1.cols (.var v) ∧
        st'.1.cols (.rawcopy v) = st.1.cols (.rawcopy v)) := by
  simp only [drift_step, hc] at h
  split at h
  · exact absurd h (by simp)
  case _ dv hi =>
    split at h
    · exact absurd h (by simp)
    case _ threshold ht =>
      refine ⟨dv, threshold, hi, ht, ?_⟩
      split at h
      case isTrue he =>
        split at h
        · exact absurd h (by simp)
        case _ orig ho =>
          cases h
          simp [setCol] at ho
          refine ⟨by simp [setCol], by simp [setCol], ?_⟩
          rw [if_pos he]
          exact ⟨orig, ho, by simp, by simp [setCol], by simp [setCol]⟩
      case isFalse he =>
        cases h
        refine ⟨by simp [setCol], by simp [setCol], ?_⟩
        rw [if_neg he]
        exact ⟨by simp, by simp [setCol], by simp [setCol]⟩

/-- The deviation interpolation reads only the time column and the variable
column of the dataframe. -/
theorem interpolate_deviation_congr
    {itp : List (ℚ × ℚ × Option ℚ) → ℚ × ℚ → Option ℚ}
    {tbl : List CalPoint} {v : Variable} {df1 df0 : DataFrame}
    (ht : df1.time = df0.time)
    (hv : df1.cols (.var v) = df0.cols (.var v)) :
    interpolate_deviation itp tbl df1 v
      = interpolate_deviation itp tbl df0 v := by
  simp only [interpolate_deviation, ht, hv]

/-- Splitting the drift-correction loop at one variable and framing the
other iterations. -/
theorem manage_split_at
    {itp : List (ℚ × ℚ × Option ℚ) → ℚ × ℚ → Option ℚ}
    {cal : Variable → Option (List CalPoint)} {df df' : DataFrame}
    {dec : Variable → Option Bool} {v : Variable} {l1 l2 : List Variable}
    (hl : variableOrder = l1 ++ v :: l2)
    (hm1 : ∀ w ∈ l1, w ≠ v) (hm2 : ∀ w ∈ l2, w ≠ v)
    (h : manage_drift_correction itp df cal = .ok (df', dec)) :
    ∃ s1 s2, varState v s1 = varState v (df, fun _ => none) ∧
      drift_step itp cal v s1 = .ok s2 ∧
      varState v (df', dec) = varState v s2 := by
  rw [manage_drift_correction, hl] at h
  obtain ⟨s1, ha, hb⟩ := run_vars_ok_append h
  obtain ⟨s2, hstep, hrest⟩ := run_vars_ok_cons hb
  refine ⟨s1, s2, ?_, hstep, ?_⟩
  · exact run_vars_preserves (varState v) l1 _ _
      (fun w hw s s' hs => drift_step_frame (hm1 w hw) hs) ha
  · exact run_vars_preserves (varState v) l2 _ _
      (fun w hw s s' hs => drift_step_frame (hm2 w hw) hs) hrest

/-- What a successful drift-correction run does to a variable that has a
calibration bracket. -/
theorem manage_at_var
    {itp : List (ℚ × ℚ × Option ℚ) → ℚ × ℚ → Option ℚ}
    {cal : Variable → Option (List CalPoint)} {df df' : DataFrame}
    {dec : Variable → Option Bool} {v : Variable} {tbl : List CalPoint}
    (hc : cal v = some tbl)
    (h : manage_drift_correction itp df cal = .ok (df', dec)) :
    ∃ dv threshold, interpolate_deviation itp tbl df v = .ok dv ∧
      THRESHOLDS v = some threshold ∧
      df'.cols (.dev v) = some dv ∧
      (if tbl.any (fun p => exceeds threshold p.deviation) then
        ∃ orig, df.cols (.var v) = some orig ∧ dec v = some true ∧
          df'.cols (.rawcopy v) = some orig ∧
          df'.cols (.var v) = some (addSeries orig dv)
      else dec v = some false ∧ df'.cols (.var v) = df.cols (.var v) ∧
        df'.cols (.rawcopy v) = df.cols (.rawcopy v)) := by
  have key : ∀ (l1 l2 : List Variable), variableOrder = l1 ++ v :: l2 →
      (∀ w ∈ l1, w ≠ v) → (∀ w ∈ l2, w ≠ v) →
      ∃ dv threshold, interpolate_deviation itp tbl df v = .ok dv ∧
        THRESHOLDS v = some threshold ∧
        df'.cols (.dev v) = some dv ∧
        (if tbl.any (fun p => exceeds threshold p.deviation) then
          ∃ orig, df.cols (.var v) = some orig ∧ dec v = some true ∧
            df'.cols (.rawcopy v) = some orig ∧
            df'.cols (.var v) = some (addSeries orig dv)
        else dec v = some false ∧ df'.cols (.var v) = df.cols (.var v) ∧
          df'.cols (.rawcopy v) = df.cols (.rawcopy v)) := by
    intro l1 l2 hl hm1 hm2
    obtain ⟨s1, s2, hfr1, hstep, hfr2⟩ := manage_split_at hl hm1 hm2 h
    simp only [varState, Prod.mk.injEq] at hfr1 hfr2
    obtain ⟨ht1, hvar1, hdev1, hraw1, hdec1⟩ := hfr1
    obtain ⟨ht2, hvar2, hdev2, hraw2, hdec2⟩ := hfr2
    obtain ⟨dv, threshold, hi, hth, htime, hdev, hcase⟩ :=
      drift_step_effect hc hstep
    rw [interpolate_deviation_congr ht1 hvar1] at hi
    refine ⟨dv, threshold, hi, hth, by rw [hdev2, hdev], ?_⟩
    rcases Bool.eq_false_or_eq_true
        (tbl.any (fun p => exceeds threshold p.deviation)) with hb | hb
    · rw [if_pos hb] at hcase ⊢
      obtain ⟨orig, ho, ha, hbb, hcc⟩ := hcase
      exact ⟨orig, by rw [← hvar1]; exact ho, by rw [hdec2, ha],
        by rw [hraw2, hbb], by rw [hvar2, hcc]⟩
    · rw [if_neg (by simp [hb])] at hcase ⊢
      obtain ⟨ha, hbb, hcc⟩ := hcase
      exact ⟨by rw [hdec2, ha], by rw [hvar2, hbb, hvar1],
        by rw [hraw2, hcc, hraw1]⟩
  cases v with
  | temperature =>
    exact key [] [.salinity, .conductivity, .depth, .pressure]
      rfl (by decide) (by decide)
  | salinity =>
    exact key [.temperature] [.conductivity, .depth, .pressure]
      rfl (by decide) (by decide)
  | conductivity =>
    exact key [.temperature, .salinity] [.depth, .pressure]
      rfl (by decide) (by decide)
  | depth =>
    exact key [.temperature, .salinity, .conductivity] [.pressure]
      rfl (by decide) (by decide)
  | pressure =>
    exact key [.temperature, .salinity, .conductivity, .depth] []
      rfl (by decide) (by decide)

/-- The single-cell threshold comparison holds exactly when the cell holds a
value with absolute value strictly above the threshold. -/
theorem exceeds_iff {threshold : ℚ} {d : Option ℚ} :
    exceeds threshold d = true ↔ ∃ dv, d = some dv ∧ threshold < |dv| := by
  cases d <;> simp [exceeds]

/-- The decision condition of `manage_drift_correction` holds exactly when
some calibration point has absolute deviation strictly above the
threshold. -/
theorem any_exceeds_iff {threshold : ℚ} {tbl : List CalPoint} :
    tbl.any (fun p => exceeds threshold p.deviation) = true
      ↔ ∃ p ∈ tbl, ∃ d, p.deviation = some d ∧ threshold < |d| := by
  rw [List.any_eq_true]
  constructor
  · rintro ⟨p, hp, he⟩
    obtain ⟨d, hd, hlt⟩ := exceeds_iff.mp he
    exact ⟨p, hp, d, hd, hlt⟩
  · rintro ⟨p, hp, d, hd, hlt⟩
    exact ⟨p, hp, exceeds_iff.mpr ⟨d, hd, hlt⟩⟩

/-- Indexwise description of a zipped list. -/
theorem zipWith_get?_some {α β γ : Type} (f : α → β → γ) :
    ∀ (as : List α) (bs : List β) (i : Nat) (a : α) (b : β),
    as.get? i = some a → bs.get? i = some b →
    (List.zipWith f as bs).get? i = some (f a b) := by
  intro as
  induction as with
  | nil => intro bs i a b ha _; simp at ha
  | cons x xs ih =>
    intro bs i a b ha hb
    cases bs with
    | nil => simp at hb
    | cons y ys =>
      cases i with
      | zero =>
        simp only [List.get?] at ha hb
        cases ha; cases hb
        simp [List.zipWith]
      | succ n =>
        simp only [List.get?] at ha hb
        simpa [List.zipWith] using ih ys n a b ha hb

/-- Concrete calibration point used in closed instances: deviation 2 at
standard value 1, time 0. -/
def pt0 : CalPoint :=
  { standard := some 1, instrument := some 0, deviation := some 2,
    nominal := none, time := .real 0 }

/-- Concrete one-point bracketing table. -/
def tbl0 : List CalPoint := [pt0]

/-- Concrete interpolant returning deviation 0 everywhere. -/
def itp0 : List (ℚ × ℚ × Option ℚ) → ℚ × ℚ → Option ℚ := fun _ _ => some 0

/-- Concrete observation dataframe: one depth observation of value 5 at
time 0. -/
def df0 : DataFrame :=
  { time := [0],
    cols := fun c => if c = Col.var .depth then some [some 5] else none }

/-- Concrete calibration dictionary: a bracket for depth only. -/
def cal0 : Variable → Option (List CalPoint) :=
  fun v => if v = .depth then some tbl0 else none

/-- Dataframe produced by correcting `df0` against `tbl0`. -/
def df0' : DataFrame :=
  setCol (setCol (setCol df0 (.dev .depth) [some 0])
    (.rawcopy .depth) [some 5]) (.var .depth)
    (addSeries [some 5] [some 0])

/-- Decision record produced by correcting `df0` against `tbl0` (deviation
2 is above the depth threshold 1). -/
def dec0 : Variable → Option Bool :=
  fun w => if w = .depth then some true else none

/-- Evaluation of the concrete corrected run. -/
theorem run0_ok :
    manage_drift_correction itp0 df0 cal0 = .ok (df0', dec0) := rfl

/-- C4: drift correction is applied to a variable exactly when some single
calibration point of the bracketing table has absolute deviation strictly
above the fixed threshold of the variable (temperature 0.01, salinity 0.05,
conductivity 0.009, depth 1.0), evaluated on the calibration points and not
on the interpolated series; a deviation of exactly the threshold does not
satisfy the strict comparison, threshold plus any positive epsilon does. -/
theorem C4_threshold_gate :
    (THRESHOLDS .temperature = some (1/100)
      ∧ THRESHOLDS .salinity = some (5/100)
      ∧ THRESHOLDS .conductivity = some (9/1000)
      ∧ THRESHOLDS .depth = some 1)
    ∧ (∀ itp cal df df' dec v tbl threshold,
        manage_drift_correction itp df cal = .ok (df', dec) →
        cal v = some tbl → THRESHOLDS v = some threshold →
        ((dec v = some true
            ↔ ∃ p ∈ tbl, ∃ d, p.deviation = some d ∧ threshold < |d|)
          ∧ (dec v = some false
            ↔ ¬∃ p ∈ tbl, ∃ d, p.deviation = some d ∧ threshold < |d|)))
    ∧ (∀ threshold ε : ℚ, 0 ≤ threshold → 0 < ε →
        exceeds threshold (some threshold) = false
        ∧ exceeds threshold (some (threshold + ε)) = true) := by
  refine ⟨⟨rfl, rfl, rfl, rfl⟩, ?_, ?_⟩
  · intro itp cal df df' dec v tbl threshold h hc hth
    obtain ⟨dv, th2, hi, hth2, hdev, hcase⟩ := manage_at_var hc h
    rw [hth] at hth2
    injection hth2 with hth2
    subst hth2
    rcases Bool.eq_false_or_eq_true
        (tbl.any (fun p => exceeds threshold p.deviation)) with hb | hb
    · rw [if_pos hb] at hcase
      obtain ⟨orig, -, hdectrue, -, -⟩ := hcase
      refine ⟨⟨fun _ => any_exceeds_iff.mp hb, fun _ => hdectrue⟩, ?_, ?_⟩
      · intro hfalse
        rw [hdectrue] at hfalse
        simp at hfalse
      · intro hnot
        exact absurd (any_exceeds_iff.mp hb) hnot
    · rw [if_neg (by simp [hb])] at hcase
      obtain ⟨hdecfalse, -, -⟩ := hcase
      have hnot : ¬∃ p ∈ tbl, ∃ d, p.deviation = some d ∧ threshold < |d| :=
        fun hex => absurd (any_exceeds_iff.mpr hex) (by simp [hb])
      refine ⟨⟨?_, fun hex => absurd hex hnot⟩, fun _ => hnot,
        fun _ => hdecfalse⟩
      intro htrue
      rw [hdecfalse] at htrue
      simp at htrue
  · intro threshold ε hθ hε
    constructor
    · simp [exceeds, abs_of_nonneg hθ]
    · have hs : (0:ℚ) ≤ threshold + ε := by linarith
      simp only [exceeds, Option.elim, abs_of_nonneg hs,
        decide_eq_true_eq]
      linarith

/-- Closed instance of C4: the concrete corrected run has a calibration
point above the depth threshold and its decision is true; the boundary
comparisons at the temperature threshold behave strictly. -/
theorem C4_threshold_gate_witness :
    dec0 .depth = some true
    ∧ exceeds (1/100) (some (1/100)) = false
    ∧ exceeds (1/100) (some (1/100 + 1/1000000)) = true := by
  obtain ⟨-, hiff, hbound⟩ := C4_threshold_gate
  refine ⟨?_,
    (hbound (1/100) (1/1000000) (by norm_num) (by norm_num)).1,
    (hbound (1/100) (1/1000000) (by norm_num) (by norm_num)).2⟩
  exact ((hiff itp0 cal0 df0 df0' dec0 .depth tbl0 1 run0_ok rfl rfl).1).mpr
    ⟨pt0, by simp [tbl0], 2, rfl, by norm_num⟩

/-- C5: for a variable with a calibration bracket, `manage_drift_correction`
always stores the full interpolated deviation series, whether or not the
correction is applied; when the threshold is not exceeded the decision is
false and the variable column (and its raw copy) are untouched, and when it
is exceeded the pre-correction copy is retained and the whole column is
corrected at once. -/
theorem C5_stores_deviation_and_corrects_whole_series :
    ∀ itp cal df df' dec v tbl dv,
      manage_drift_correction itp df cal = .ok (df', dec) →
      cal v = some tbl →
      interpolate_deviation itp tbl df v = .ok dv →
      df'.cols (.dev v) = some dv
      ∧ (dec v = some false →
          df'.cols (.var v) = df.cols (.var v)
          ∧ df'.cols (.rawcopy v) = df.cols (.rawcopy v))
      ∧ (dec v = some true →
          df'.cols (.rawcopy v) = df.cols (.var v)
          ∧ df'.cols (.var v)
              = (df.cols (.var v)).map (fun orig => addSeries orig dv)) := by
  intro itp cal df df' dec v tbl dv h hc hi
  obtain ⟨dv2, th, hi2, hth, hdev, hcase⟩ := manage_at_var hc h
  rw [hi] at hi2
  injection hi2 with hi2
  subst hi2
  rcases Bool.eq_false_or_eq_true
      (tbl.any (fun p => exceeds th p.deviation)) with hb | hb
  · rw [if_pos hb] at hcase
    obtain ⟨orig, ho, hdect, hraw, hvar⟩ := hcase
    refine ⟨hdev, ?_, ?_⟩
    · intro hfalse
      rw [hdect] at hfalse
      simp at hfalse
    · intro _
      rw [ho]
      exact ⟨by rw [hraw], by simp [hvar]⟩
  · rw [if_neg (by simp [hb])] at hcase
    obtain ⟨hdecf, hvar, hraw⟩ := hcase
    refine ⟨hdev, fun _ => ⟨hvar, hraw⟩, ?_⟩
    intro htrue
    rw [hdecf] at htrue
    simp at htrue

/-- Closed instance of C5 at the concrete corrected run. -/
theorem C5_stores_deviation_witness :
    df0'.cols (.dev .depth) = some [some 0]
    ∧ (dec0 .depth = some false →
        df0'.cols (.var .depth) = df0.cols (.var .depth)
        ∧ df0'.cols (.rawcopy .depth) = df0.cols (.rawcopy .depth))
    ∧ (dec0 .depth = some true →
        df0'.cols (.rawcopy .depth) = df0.cols (.var .depth)
        ∧ df0'.cols (.var .depth)
            = (df0.cols (.var .depth)).map
                (fun orig => addSeries orig [some 0])) :=
  C5_stores_deviation_and_corrects_whole_series itp0 cal0 df0 df0' dec0
    .depth tbl0 [some 0] run0_ok rfl rfl

/-- C6 (amended): for a corrected variable, subtracting the stored deviation
series from the corrected series reconstructs the original observed value
exactly at every index where the deviation is defined; at a not-a-number
deviation index the corrected entry is the not-a-number marker as well, so
no reconstruction is possible there. -/
theorem C6_roundtrip_on_defined_deviation :
    ∀ itp cal df df' dec v tbl dv orig (i : Nat) (d x : ℚ),
      manage_drift_correction itp df cal = .ok (df', dec) →
      cal v = some tbl →
      dec v = some true →
      df.cols (.var v) = some orig →
      df'.cols (.dev v) = some dv →
      dv.get? i = some (some d) →
      orig.get? i = some (some x) →
      df'.cols (.var v) = some (addSeries orig dv)
      ∧ (subSeries (addSeries orig dv) dv).get? i = some (some x) := by
  intro itp cal df df' dec v tbl dv orig i d x h hc hdect horig hdev hdget
    hoget
  obtain ⟨dv2, th, hi2, hth, hdev2, hcase⟩ := manage_at_var hc h
  rw [hdev] at hdev2
  injection hdev2 with hdev2
  subst hdev2
  rcases Bool.eq_false_or_eq_true
      (tbl.any (fun p => exceeds th p.deviation)) with hb | hb
  · rw [if_pos hb] at hcase
    obtain ⟨orig2, ho2, -, -, hvar⟩ := hcase
    rw [horig] at ho2
    injection ho2 with ho2
    subst ho2
    refine ⟨hvar, ?_⟩
    have h1 : (addSeries orig dv).get? i = some (some (x + d)) :=
      zipWith_get?_some _ orig dv i (some x) (some d) hoget hdget
    have h2 : (subSeries (addSeries orig dv) dv).get? i
        = some (some (x + d - d)) :=
      zipWith_get?_some _ (addSeries orig dv) dv i (some (x + d)) (some d)
        h1 hdget
    rw [h2]
    norm_num
  · rw [if_neg (by simp [hb])] at hcase
    rw [hcase.1] at hdect
    simp at hdect

/-- Closed instance of the amended C6 at the concrete corrected run. -/
theorem C6_roundtrip_witness :
    df0'.cols (.var .depth) = some (addSeries [some 5] [some 0])
    ∧ (subSeries (addSeries [some 5] [some 0]) [some 0]).get? 0
        = some (some 5) :=
  C6_roundtrip_on_defined_deviation itp0 cal0 df0 df0' dec0 .depth tbl0
    [some 0] [some 5] 0 0 5 run0_ok rfl rfl rfl rfl rfl rfl

/-- Concrete interpolant defined only up to time 1 (beyond the calibration
bracket it yields the not-a-number marker, as the scattered interpolant does
outside the convex hull of its points). -/
def itp1 : List (ℚ × ℚ × Option ℚ) → ℚ × ℚ → Option ℚ :=
  fun _ q => if q.1 ≤ 1 then some 0 else none

/-- Concrete dataframe with a second depth observation at time 2, outside
the reach of `itp1`. -/
def df1 : DataFrame :=
  { time := [0, 2],
    cols := fun c =>
      if c = Col.var .depth then some [some 5, some 7] else none }

/-- Dataframe produced by correcting `df1` with `itp1`: the deviation and
corrected entries at index 1 are not-a-number. -/
def df1' : DataFrame :=
  setCol (setCol (setCol df1 (.dev .depth) [some 0, none])
    (.rawcopy .depth) [some 5, some 7]) (.var .depth)
    (addSeries [some 5, some 7] [some 0, none])

/-- C6 as stated is false: in this corrected run the deviation at index 1
is the not-a-number marker, the corrected entry there is not-a-number too,
and subtracting the deviation series from the corrected series yields
not-a-number instead of the original observed value 7. -/
theorem C6_roundtrip_fails_at_nan :
    manage_drift_correction itp1 df1 cal0 = .ok (df1', dec0)
    ∧ dec0 .depth = some true
    ∧ df1.cols (.var .depth) = some [some 5, some 7]
    ∧ df1'.cols (.dev .depth) = some [some 0, none]
    ∧ df1'.cols (.var .depth)
        = some (addSeries [some 5, some 7] [some 0, none])
    ∧ (addSeries [some 5, some 7] [some 0, none]).get? 1 = some none
    ∧ (subSeries (addSeries [some 5, some 7] [some 0, none])
        [some 0, none]).get? 1 = some none
    ∧ some none ≠ some (some (7:ℚ)) :=
  ⟨rfl, rfl, rfl, rfl, rfl, rfl, rfl, by simp⟩

/-- The `(time_num, standard, deviation)` triples the scattered interpolant
is built from in `interpolate_deviation`: the calibration points with a
present standard value. -/
def calInterpolationPoints (caldata : List CalPoint) :
    List (ℚ × ℚ × Option ℚ) :=
  (caldata.filter (fun p => p.standard.isSome)).map
    (fun p => (timeNumOf p.time, p.standard.getD 0, p.deviation))

/-- The `(time_num, standard)` coordinates of the calibration points the
interpolant is built from. -/
def calCoordinates (caldata : List CalPoint) : Set (ℚ × ℚ) :=
  {c | ∃ p ∈ caldata.filter (fun p => p.standard.isSome),
    c = (timeNumOf p.time, p.standard.getD 0)}

/-- C8: the interpolator discards calibration points with a missing standard
value before building the interpolant (dropping such a point changes
nothing), and an observation whose coordinate lies outside the convex hull
of the calibration coordinates — where the scattered interpolant yields its
not-a-number marker — produces a not-a-number entry in the stored deviation
series, never a zero, and a not-a-number entry in the corrected series when
the correction is applied. -/
theorem C8_discards_missing_standard_and_propagates_nan :
    (∀ itp caldata (q : CalPoint) df v,
      q.standard = none → q.time ≠ TimeVal.deployment →
      interpolate_deviation itp (caldata ++ [q]) df v
        = interpolate_deviation itp caldata df v)
    ∧ (∀ itp cal df df' dec v tbl dv vals (i : Nat) (t x : ℚ),
        manage_drift_correction itp df cal = .ok (df', dec) →
        cal v = some tbl →
        df'.cols (.dev v) = some dv →
        df.cols (.var v) = some vals →
        (∀ c : ℚ × ℚ, c ∉ convexHull ℚ (calCoordinates tbl) →
          itp (calInterpolationPoints tbl) c = none) →
        df.time.get? i = some t →
        vals.get? i = some (some x) →
        (t, x) ∉ convexHull ℚ (calCoordinates tbl) →
        dv.get? i = some none
        ∧ dv.get? i ≠ some (some 0)
        ∧ (dec v = some true →
            df'.cols (.var v) = some (addSeries vals dv)
            ∧ (addSeries vals dv).get? i = some none)) := by
  constructor
  · intro itp caldata q df v hstd htime
    simp only [interpolate_deviation, List.any_append, List.any_cons,
      List.any_nil, List.filter_append]
    have h1 : (decide (q.time = TimeVal.deployment) || false) = false := by
      simp [htime]
    have h2 : List.filter (fun p => p.standard.isSome) [q] = [] := by
      simp [List.filter, hstd]
    rw [h1, h2, List.append_nil, Bool.or_false]
  · intro itp cal df df' dec v tbl dv vals i t x h hc hdev hvals hhull ht
      hx hnotmem
    obtain ⟨dv2, th, hi, hth, hdev2, hcase⟩ := manage_at_var hc h
    rw [hdev] at hdev2
    injection hdev2 with hdev2
    subst hdev2
    simp only [interpolate_deviation] at hi
    split at hi
    · exact absurd hi (by simp)
    · rw [hvals] at hi
      injection hi with hi
      have hentry : dv.get? i = some (itp (calInterpolationPoints tbl)
          (t, x)) := by
        rw [← hi]
        exact zipWith_get?_some _ df.time vals i t (some x) ht hx
      rw [hhull (t, x) hnotmem] at hentry
      refine ⟨hentry, by rw [hentry]; simp, ?_⟩
      intro hdect
      rcases Bool.eq_false_or_eq_true
          (tbl.any (fun p => exceeds th p.deviation)) with hb | hb
      · rw [if_pos hb] at hcase
        obtain ⟨orig, ho, -, -, hvar⟩ := hcase
        rw [hvals] at ho
        injection ho with ho
        subst ho
        refine ⟨hvar, ?_⟩
        have := zipWith_get?_some
          (fun x d => match x, d with
            | some xv, some dvv => some (xv + dvv)
            | _, _ => none) vals dv i (some x) none hx hentry
        simpa [addSeries] using this
      · rw [if_neg (by simp [hb])] at hcase
        rw [hcase.1] at hdect
        simp at hdect

/-- Concrete interpolant that is undefined everywhere (its points never
surround any query). -/
def itpW : List (ℚ × ℚ × Option ℚ) → ℚ × ℚ → Option ℚ := fun _ _ => none

/-- Dataframe produced by correcting `df0` with `itpW`: the stored deviation
and the corrected entry are not-a-number. -/
def df0w : DataFrame :=
  setCol (setCol (setCol df0 (.dev .depth) [none])
    (.rawcopy .depth) [some 5]) (.var .depth)
    (addSeries [some 5] [none])

/-- Concrete calibration point with a missing standard value. -/
def qbad : CalPoint :=
  { standard := none, instrument := none, deviation := some 99,
    nominal := none, time := .real 5 }

/-- The interpolation coordinates of the concrete bracket are the single
point (0, 1). -/
theorem calCoordinates_tbl0 :
    calCoordinates tbl0 = {((0:ℚ), (1:ℚ))} := by
  ext c
  simp [calCoordinates, tbl0, pt0, timeNumOf, List.filter]

/-- The concrete observation coordinate (0, 5) lies outside the convex hull
of the calibration coordinates of `tbl0`. -/
theorem obs_not_in_hull_tbl0 :
    ((0:ℚ), (5:ℚ)) ∉ convexHull ℚ (calCoordinates tbl0) := by
  rw [calCoordinates_tbl0, convexHull_singleton]
  simp only [Set.mem_singleton_iff, Prod.mk.injEq]
  norm_num

/-- Closed instance of C8: dropping a missing-standard point changes
nothing, and the out-of-hull observation of the concrete run receives a
not-a-number deviation and corrected entry, not zero. -/
theorem C8_discards_missing_standard_witness :
    (interpolate_deviation itpW (tbl0 ++ [qbad]) df0 .depth
        = interpolate_deviation itpW tbl0 df0 .depth)
    ∧ ([(none : Option ℚ)].get? 0 = some none
        ∧ [(none : Option ℚ)].get? 0 ≠ some (some 0)
        ∧ (dec0 .depth = some true →
            df0w.cols (.var .depth) = some (addSeries [some 5] [none])
            ∧ (addSeries [some 5] [none]).get? 0 = some none)) :=
  ⟨C8_discards_missing_standard_and_propagates_nan.1 itpW tbl0 qbad df0
      .depth rfl (by simp [qbad]),
   C8_discards_missing_standard_and_propagates_nan.2 itpW cal0 df0 df0w
      dec0 .depth tbl0 [none] [some 5] 0 0 5 rfl rfl rfl rfl
      (fun c hc => rfl) rfl rfl obs_not_in_hull_tbl0⟩

/-- One calibration-retrieval iteration touches only its own variable. -/
theorem getcal_step_frame {cs : CalSheets} {header : Header}
    {ypre : Option (Int × CalFlags)} {w v : Variable} (hne : w ≠ v)
    {acc m' : Variable → Option (List CalPoint)}
    (h : getcal_step cs header ypre w acc = .ok m') : m' v = acc v := by
  simp only [getcal_step] at h
  split at h
  · split at h
    · exact absurd h (by simp)
    · split at h
      · split at h
        · exact absurd h (by simp)
        · split at h
          · exact absurd h (by simp)
          · cases h
            simp [hne, Ne.symm hne]
      · cases h; rfl
  · cases h; rfl

/-- A variable not classified `observation` is skipped by the retrieval
loop. -/
theorem getcal_step_skip {cs : CalSheets} {header : Header}
    {ypre : Option (Int × CalFlags)} {v : Variable}
    (hsrc : header.data_source v ≠ some .observation)
    {acc m' : Variable → Option (List CalPoint)}
    (h : getcal_step cs header ypre v acc = .ok m') : m' = acc := by
  rcases hds : header.data_source v with _ | src
  · simp only [getcal_step, hds] at h
    cases h; rfl
  · cases src with
    | observation => exact absurd hds hsrc
    | teos10 => simp only [getcal_step, hds] at h; cases h; rfl
    | metadata => simp only [getcal_step, hds] at h; cases h; rfl

/-- Effect of one calibration-retrieval iteration on an observation
variable. -/
theorem getcal_step_effect {cs : CalSheets} {header : Header}
    {ypre : Option (Int × CalFlags)} {v : Variable}
    (hsrc : header.data_source v = some .observation)
    {acc m' : Variable → Option (List CalPoint)}
    (h : getcal_step cs header ypre v acc = .ok m') :
    ∃ c, get_calibration_data_setup v header.deployment_year
        header.mli_calibration ypre = .ok c
      ∧ (c.ok = true → ∃ pre0 post,
          read_calfile cs c.pre.2 c.pre.1 = .ok pre0
          ∧ read_calfile cs c.post.2 c.post.1 = .ok post
          ∧ m' v = some ((if pre0.any (fun p => p.time = TimeVal.deployment)
              then pre0.map (fun p =>
                { p with time :=
                    .real header.trip_installation_real_date })
              else pre0) ++ post))
      ∧ (c.ok = false → m' = acc) := by
  simp only [getcal_step, hsrc] at h
  split at h
  · exact absurd h (by simp)
  case _ c hsel =>
    refine ⟨c, hsel, ?_, ?_⟩
    · intro hok
      rw [if_pos hok] at h
      split at h
      · exact absurd h (by simp)
      case _ pre0 hpre =>
        split at h
        · exact absurd h (by simp)
        case _ post hpost =>
          cases h
          exact ⟨pre0, post, hpre, hpost, by simp⟩
    · intro hnotok
      rw [if_neg (by simp [hnotok])] at h
      cases h
      rfl

/-- Splitting the retrieval loop at one variable and framing the other
iterations. -/
theorem getcal_split_at {cs : CalSheets} {header : Header}
    {ypre : Option (Int × CalFlags)}
    {m : Variable → Option (List CalPoint)} {v : Variable}
    {l1 l2 : List Variable}
    (hl : variableOrder = l1 ++ v :: l2)
    (hm1 : ∀ w ∈ l1, w ≠ v) (hm2 : ∀ w ∈ l2, w ≠ v)
    (h : get_calibration_data cs header ypre = .ok m) :
    ∃ a1 a2, a1 v = none ∧ getcal_step cs header ypre v a1 = .ok a2
      ∧ m v = a2 v := by
  rw [get_calibration_data, hl] at h
  obtain ⟨a1, ha, hb⟩ := run_vars_ok_append h
  obtain ⟨a2, hstep, hrest⟩ := run_vars_ok_cons hb
  refine ⟨a1, a2, ?_, hstep, ?_⟩
  · exact run_vars_preserves (fun acc => acc v) l1 _ _
      (fun w hw s s' hs => getcal_step_frame (hm1 w hw) hs) ha
  · exact run_vars_preserves (fun acc => acc v) l2 _ _
      (fun w hw s s' hs => getcal_step_frame (hm2 w hw) hs) hrest

/-- What a successful retrieval run stores for an observation variable. -/
theorem getcal_at_var {cs : CalSheets} {header : Header}
    {ypre : Option (Int × CalFlags)}
    {m : Variable → Option (List CalPoint)} {v : Variable}
    (hsrc : header.data_source v = some .observation)
    (h : get_calibration_data cs header ypre = .ok m) :
    ∃ c, get_calibration_data_setup v header.deployment_year
        header.mli_calibration ypre = .ok c
      ∧ (c.ok = true → ∃ pre0 post,
          read_calfile cs c.pre.2 c.pre.1 = .ok pre0
          ∧ read_calfile cs c.post.2 c.post.1 = .ok post
          ∧ m v = some ((if pre0.any (fun p => p.time = TimeVal.deployment)
              then pre0.map (fun p =>
                { p with time :=
                    .real header.trip_installation_real_date })
              else pre0) ++ post))
      ∧ (c.ok = false → m v = none) := by
  have key : ∀ (l1 l2 : List Variable), variableOrder = l1 ++ v :: l2 →
      (∀ w ∈ l1, w ≠ v) → (∀ w ∈ l2, w ≠ v) →
      ∃ c, get_calibration_data_setup v header.deployment_year
          header.mli_calibration ypre = .ok c
        ∧ (c.ok = true → ∃ pre0 post,
            read_calfile cs c.pre.2 c.pre.1 = .ok pre0
            ∧ read_calfile cs c.post.2 c.post.1 = .ok post
            ∧ m v = some ((if pre0.any
                  (fun p => p.time = TimeVal.deployment)
                then pre0.map (fun p =>
                  { p with time :=
                      .real header.trip_installation_real_date })
                else pre0) ++ post))
        ∧ (c.ok = false → m v = none) := by
    intro l1 l2 hl hm1 hm2
    obtain ⟨a1, a2, ha1, hstep, hm⟩ := getcal_split_at hl hm1 hm2 h
    obtain ⟨c, hsel, hok, hnotok⟩ := getcal_step_effect hsrc hstep
    refine ⟨c, hsel, ?_, ?_⟩
    · intro hc
      obtain ⟨pre0, post, hpre, hpost, hv⟩ := hok hc
      exact ⟨pre0, post, hpre, hpost, by rw [hm, hv]⟩
    · intro hc
      rw [hm, hnotok hc, ha1]
  cases v with
  | temperature =>
    exact key [] [.salinity, .conductivity, .depth, .pressure]
      rfl (by decide) (by decide)
  | salinity =>
    exact key [.temperature] [.conductivity, .depth, .pressure]
      rfl (by decide) (by decide)
  | conductivity =>
    exact key [.temperature, .salinity] [.depth, .pressure]
      rfl (by decide) (by decide)
  | depth =>
    exact key [.temperature, .salinity, .conductivity] [.pressure]
      rfl (by decide) (by decide)
  | pressure =>
    exact key [.temperature, .salinity, .conductivity, .depth] []
      rfl (by decide) (by decide)

/-- Every valid calibration variable has a positive blank-table row
count. -/
theorem nrowsOf_pos {v : CalVariant}
    (hvalid : valid_calfile_variable v = true) : 0 < nrowsOf v := by
  cases v <;> simp_all [valid_calfile_variable, nrowsOf]

/-- C7: retrieving the `blank` identifier synthesizes a table whose
standard, instrument and deviation values are all zero with the symbolic
`deployment` timestamp, and `get_calibration_data` resolves that symbolic
time to the real installation timestamp before the pre table is concatenated
(pre before post), so no row of the stored bracketing table carries the
unresolved symbolic time when it reaches the interpolator. -/
theorem C7_blank_synthesis_and_resolution :
    (∀ cs v, valid_calfile_variable v = true →
      read_calfile cs .blank v
        = .ok (List.replicate (nrowsOf v) (blank_row (hasNominal v)))
      ∧ (blank_row (hasNominal v)).standard = some 0
      ∧ (blank_row (hasNominal v)).instrument = some 0
      ∧ (blank_row (hasNominal v)).deviation = some 0
      ∧ (blank_row (hasNominal v)).time = TimeVal.deployment)
    ∧ (∀ cs header ypre m v c (y : Int),
        get_calibration_data cs header ypre = .ok m →
        header.data_source v = some .observation →
        get_calibration_data_setup v header.deployment_year
          header.mli_calibration ypre = .ok c →
        c.ok = true → c.pre.2 = .blank → c.post.2 = .yr y →
        ∃ post, read_calfile cs (.yr y) c.post.1 = .ok post
          ∧ m v = some (((List.replicate (nrowsOf c.pre.1)
              (blank_row (hasNominal c.pre.1))).map (fun p : CalPoint =>
                { p with time :=
                    TimeVal.real header.trip_installation_real_date }))
              ++ post)
          ∧ (((List.replicate (nrowsOf c.pre.1)
              (blank_row (hasNominal c.pre.1))).map (fun p : CalPoint =>
                { p with time :=
                    TimeVal.real header.trip_installation_real_date }))
              ++ post).all
              (fun p => decide (p.time ≠ TimeVal.deployment)) = true) := by
  constructor
  · intro cs v hvalid
    refine ⟨?_, rfl, rfl, rfl, rfl⟩
    simp [read_calfile, hvalid]
  · intro cs header ypre m v c y h hsrc hsel hok hpreblank hposty
    obtain ⟨c2, hsel2, hokcase, -⟩ := getcal_at_var hsrc h
    rw [hsel] at hsel2
    injection hsel2 with hsel2
    subst hsel2
    obtain ⟨pre0, post, hpre0, hpost0, hv⟩ := hokcase hok
    rw [hpreblank] at hpre0
    simp only [read_calfile] at hpre0
    split at hpre0
    · exact absurd hpre0 (by simp)
    case _ hvalidpre =>
      have hvalid : valid_calfile_variable c.pre.1 = true := by
        simpa using hvalidpre
      injection hpre0 with hpre0
      subst hpre0
      have hany : (List.replicate (nrowsOf c.pre.1)
          (blank_row (hasNominal c.pre.1))).any
          (fun p => p.time = TimeVal.deployment) = true := by
        rcases Nat.exists_eq_add_of_lt (nrowsOf_pos hvalid) with ⟨k, hk⟩
        rw [hk]
        simp [List.replicate, blank_row]
      rw [if_pos hany] at hv
      rw [hposty] at hpost0
      refine ⟨post, hpost0, hv, ?_⟩
      simp only [read_calfile] at hpost0
      split at hpost0
      · exact absurd hpost0 (by simp)
      · split at hpost0
        case isTrue hsheet =>
          injection hpost0 with hpost0
          subst hpost0
          rw [List.all_eq_true]
          intro p hp
          rcases List.mem_append.mp hp with hp | hp
          · obtain ⟨q, -, rfl⟩ := List.mem_map.mp hp
            simp
          · obtain ⟨r, -, rfl⟩ := List.mem_map.mp hp
            simp
        case isFalse hsheet =>
          exact absurd hpost0 (by simp)

/-- Probe results of a new device: only the 2023 sheet holds temperature
data. -/
def probe7 : Int → CalFlags :=
  fun y => if y = 2023 then ⟨true, false, false, false, false, false⟩
           else noFlags

/-- Header of the new-device scenario: deployment year 2023, installation
time 100, temperature observed, single calibration year. -/
def header7 : Header :=
  { deployment_year := 2023
    trip_installation_real_date := 100
    data_source := fun v => if v = .temperature then some .observation
                            else none
    mli_calibration := fullWindow probe7 true }

/-- Workbook of the new device: only the 2023 sheet, block date 50, one row
per block. -/
def cs7 : CalSheets :=
  { sheets := fun y => decide (y = 2023)
    date := fun _ _ => 50
    rows := fun _ _ => [⟨some 1, some 1, some 0, none⟩] }

/-- Selector output of the new-device scenario: blank pre, 2023 post. -/
def cBlank : Calibrations :=
  ⟨true, (.temperature, .blank), (.temperature, .yr 2023)⟩

/-- Calibration tables retrieved in the new-device scenario. -/
def m7 : Variable → Option (List CalPoint) :=
  fun w => if w = .temperature then
    some (((List.replicate 6 (blank_row true)).map
      (fun p : CalPoint => { p with time := TimeVal.real 100 }))
      ++ [{ standard := some 1, instrument := some 1, deviation := some 0,
            nominal := none, time := TimeVal.real 50 }])
  else none

/-- Closed instance of C7 at the new-device scenario. -/
theorem C7_blank_resolution_witness :
    ∃ post, read_calfile cs7 (.yr 2023) CalVariant.temperature = .ok post
      ∧ m7 .temperature = some (((List.replicate 6 (blank_row true)).map
          (fun p : CalPoint => { p with time := TimeVal.real 100 }))
          ++ post)
      ∧ (((List.replicate 6 (blank_row true)).map
          (fun p : CalPoint => { p with time := TimeVal.real 100 }))
          ++ post).all
          (fun p => decide (p.time ≠ TimeVal.deployment)) = true :=
  C7_blank_synthesis_and_resolution.2 cs7 header7 none m7 .temperature
    cBlank 2023 rfl rfl rfl rfl rfl rfl

/-- C10: a variable whose data-source classification is not `observation`
receives no calibration entry from `get_calibration_data`, and a successful
drift-correction pass records no decision for it, stores no deviation
column, and leaves its column and raw copy untouched. -/
theorem C10_only_observation_corrected :
    ∀ cs header ypre m v itp df df' dec,
      get_calibration_data cs header ypre = .ok m →
      header.data_source v ≠ some .observation →
      manage_drift_correction itp df m = .ok (df', dec) →
      m v = none
      ∧ dec v = none
      ∧ df'.cols (.var v) = df.cols (.var v)
      ∧ df'.cols (.dev v) = df.cols (.dev v)
      ∧ df'.cols (.rawcopy v) = df.cols (.rawcopy v) := by
  intro cs header ypre m v itp df df' dec hget hsrc hman
  rw [get_calibration_data] at hget
  have hmv : m v = none :=
    run_vars_preserves (fun acc => acc v) variableOrder _ _
      (fun w _ s s' hs => by
        by_cases hwv : w = v
        · subst hwv
          rw [getcal_step_skip hsrc hs]
        · exact getcal_step_frame hwv hs) hget
  rw [manage_drift_correction] at hman
  have hfr : varState v (df', dec) = varState v (df, fun _ => none) :=
    run_vars_preserves (varState v) variableOrder _ _
      (fun w _ s s' hs => by
        by_cases hwv : w = v
        · subst hwv
          simp only [drift_step, hmv] at hs
          cases hs
          rfl
        · exact drift_step_frame hwv hs) hman
  simp only [varState, Prod.mk.injEq] at hfr
  exact ⟨hmv, hfr.2.2.2.2, hfr.2.1, hfr.2.2.1, hfr.2.2.2.1⟩

/-- Probe results of a device holding depth data in every probed year. -/
def probe10 : Int → CalFlags :=
  fun _ => ⟨false, false, false, false, false, true⟩

/-- Header with depth the only observation variable. -/
def header10 : Header :=
  { deployment_year := 2023
    trip_installation_real_date := 100
    data_source := fun v => if v = .depth then some .observation else none
    mli_calibration := fullWindow probe10 true }

/-- Workbook with every year sheet present, block date 50, one row of
deviation 2 per block. -/
def cs10 : CalSheets :=
  { sheets := fun _ => true
    date := fun _ _ => 50
    rows := fun _ _ => [⟨some 1, some 1, some 2, none⟩] }

/-- Concrete retrieved calibration point of `cs10`. -/
def cp10 : CalPoint :=
  { standard := some 1, instrument := some 1, deviation := some 2,
    nominal := none, time := TimeVal.real 50 }

/-- Calibration tables retrieved for `header10`: a depth bracket only. -/
def m10 : Variable → Option (List CalPoint) :=
  fun w => if w = .depth then some ([cp10] ++ [cp10]) else none

/-- Dataframe produced by correcting `df0` against the `m10` depth
bracket. -/
def df10 : DataFrame :=
  setCol (setCol (setCol df0 (.dev .depth) [some 0])
    (.rawcopy .depth) [some 5]) (.var .depth)
    (addSeries [some 5] [some 0])

/-- Closed instance of C10: salinity is not observation-classified, gets no
bracket, no decision, and none of its columns change across the corrected
run. -/
theorem C10_only_observation_witness :
    m10 .salinity = none
    ∧ dec0 .salinity = none
    ∧ df10.cols (.var .salinity) = df0.cols (.var .salinity)
    ∧ df10.cols (.dev .salinity) = df0.cols (.dev .salinity)
    ∧ df10.cols (.rawcopy .salinity) = df0.cols (.rawcopy .salinity) :=
  C10_only_observation_corrected cs10 header10 none m10 .salinity itp0
    df0 df10 dec0 rfl (by simp [header10]) rfl

end PPMT
